import Mathlib

/-!
Verification development for the portfolio service-worker caching layer
(sw.js) and the backend exponential-backoff fetch helper (fetchWithBackoff).

The JavaScript is shallowly embedded: the network is an explicit parameter
(an Option Response for a single fetch, or a function from attempt index to
outcome for the retry loop), cache stores are association lists from URL to
response, and every handler is a pure function returning its response
together with the updated store state.
-/

/-- An HTTP response as the service worker observes it: numeric status,
status text, and body. Body equality models byte-for-byte equality. -/
structure Response where
  status : Nat
  statusText : String
  body : String
deriving DecidableEq, Repr

/-- An inbound request: full URL string, its origin, HTTP method, and the
destination hint (the value of request.destination: "document", "image", ...). -/
structure Request where
  url : String
  origin : String
  method : String
  destination : String
deriving DecidableEq, Repr

/-- response.ok in JS: status in the range 200..299. -/
def respOk (s : Nat) : Bool := 200 ≤ s && s < 300

/-- A cache store: an association list from request URL to the stored
response. The Cache API keys entries by (GET) request URL. -/
abbrev CacheStore := List (String × Response)

/-- Look up the entry stored under a URL. -/
def cacheLookup : CacheStore → String → Option Response
  | [], _ => none
  | (k, v) :: rest, u => if k = u then some v else cacheLookup rest u

/-- Insert a response under a URL, replacing any existing entry for that
URL (the Cache API put contract: put overwrites the entry for its key). -/
def cacheInsert : CacheStore → String → Response → CacheStore
  | [], u, r => [(u, r)]
  | (k, v) :: rest, u, r =>
    if k = u then (u, r) :: rest else (k, v) :: cacheInsert rest u r

/-- cache.put(request, response): the Cache API rejects put for a non-GET
request (TypeError). The strategies in sw.js never await the put promise,
so for a non-GET request the store is simply left unchanged. -/
def cachePut (cache : CacheStore) (req : Request) (r : Response) : CacheStore :=
  if req.method = "GET" then cacheInsert cache req.url r else cache

/-- cache.match(request): the Cache API matches only GET requests (with
default options), keyed by URL. -/
def cacheMatch (cache : CacheStore) (req : Request) : Option Response :=
  if req.method = "GET" then cacheLookup cache req.url else none

/-- Does the character list start with the given pattern. -/
def charsStartWith : List Char → List Char → Bool
  | _, [] => true
  | [], _ :: _ => false
  | a :: as, b :: bs => a = b && charsStartWith as bs

/-- Does the character list contain the pattern as a contiguous run. -/
def charsContain : List Char → List Char → Bool
  | [], pat => pat.isEmpty
  | a :: as, pat => charsStartWith (a :: as) pat || charsContain as pat

/-- JS String.prototype.includes, on the underlying character lists. -/
def strIncludes (s pat : String) : Bool := charsContain s.toList pat.toList

/-- The primary versioned store name (sw.js CACHE_VERSION). -/
def CACHE_VERSION : String := "portfolio-v3.0.0"

/-- The runtime store name (sw.js RUNTIME_CACHE). -/
def RUNTIME_CACHE : String := "runtime-v3.0.0"

/-- The image store name (sw.js IMAGE_CACHE). -/
def IMAGE_CACHE : String := "images-v3.0.0"

/-- The static asset list pre-populated on install (sw.js STATIC_ASSETS). -/
def STATIC_ASSETS : List String :=
  ["/", "/index.html", "/style.css", "/script.js", "/manifest.json",
   "/offline.html",
   "/js/modules/animations-gsap.js", "/js/modules/skill-chart.js",
   "/js/modules/portfolio-api.js", "/js/modules/portfolio-ui.js",
   "/js/modules/portfolio-forms.js", "/js/modules/error-handler.js"]

/-- The synthesized 503 returned by cacheFirstStrategy when the request is
not cached and the network fetch throws. -/
def offlineContent503 : Response :=
  ⟨503, "Service Unavailable", "Offline - Content not available"⟩

/-- The synthesized 503 returned by networkFirstStrategy when every
fallback is exhausted. -/
def offlineNoCache503 : Response :=
  ⟨503, "Service Unavailable", "Offline - No cached version available"⟩

/-- cacheFirstStrategy from sw.js. The network outcome of fetch(request) is
the parameter net: some r when the fetch resolves with response r, none
when it throws. On a cache hit the cached response is returned and the
background refresh (fire-and-forget fetch) writes the fresh response into
the store only when its status is exactly 200; a thrown background fetch is
swallowed. On a miss, a resolved fetch is returned (stored only when status
is 200) and a thrown fetch yields the synthesized 503. The returned store
is the state after the background write settles. -/
def cacheFirstStrategy (net : Option Response) (cache : CacheStore)
    (req : Request) : Response × CacheStore :=
  match cacheMatch cache req with
  | some cached =>
    match net with
    | some r =>
      if r.status = 200 then (cached, cachePut cache req r) else (cached, cache)
    | none => (cached, cache)
  | none =>
    match net with
    | some r =>
      if r.status = 200 then (r, cachePut cache req r) else (r, cache)
    | none => (offlineContent503, cache)

/-- networkFirstStrategy from sw.js, always on the runtime store. A
resolved fetch is returned as-is (stored first when status is exactly 200).
When the fetch throws: return the cached copy of the request if present;
otherwise, for a document request, return the entry stored under
/offline.html if present; otherwise return the synthesized 503. -/
def networkFirstStrategy (net : Option Response) (cache : CacheStore)
    (req : Request) : Response × CacheStore :=
  match net with
  | some r =>
    if r.status = 200 then (r, cachePut cache req r) else (r, cache)
  | none =>
    match cacheMatch cache req with
    | some cached => (cached, cache)
    | none =>
      if req.destination = "document" then
        match cacheLookup cache "/offline.html" with
        | some offlinePage => (offlinePage, cache)
        | none => (offlineNoCache503, cache)
      else (offlineNoCache503, cache)

/-- Which branch of the fetch event listener handles a request. -/
inductive StrategyChoice where
  | passThrough
  | apiNetworkFirst
  | imageCacheFirst
  | staticCacheFirst
  | defaultNetworkFirst
deriving DecidableEq, Repr

/-- The classification cascade of the fetch event listener in sw.js:
cross-origin requests are not intercepted; URLs containing "/api/" go to
network-first; image destinations go to cache-first on the image store;
URLs containing a static asset entry go to cache-first on the primary
store; everything else goes to network-first on the runtime store. -/
def classifyRequest (selfOrigin : String) (req : Request) : StrategyChoice :=
  if req.origin ≠ selfOrigin then .passThrough
  else if strIncludes req.url "/api/" then .apiNetworkFirst
  else if req.destination = "image" then .imageCacheFirst
  else if STATIC_ASSETS.any (fun asset => strIncludes req.url asset) then .staticCacheFirst
  else .defaultNetworkFirst

/-- The three stores the service worker uses. -/
structure SWState where
  staticCache : CacheStore
  runtimeCache : CacheStore
  imageCache : CacheStore
deriving DecidableEq, Repr

/-- The fetch event listener: classify the request and run the matching
strategy on the matching store. The response is none exactly when the
request is passed through untouched (cross-origin). -/
def handleFetch (selfOrigin : String) (net : Option Response) (st : SWState)
    (req : Request) : Option Response × SWState :=
  match classifyRequest selfOrigin req with
  | .passThrough => (none, st)
  | .apiNetworkFirst =>
    let out := networkFirstStrategy net st.runtimeCache req
    (some out.1, { st with runtimeCache := out.2 })
  | .imageCacheFirst =>
    let out := cacheFirstStrategy net st.imageCache req
    (some out.1, { st with imageCache := out.2 })
  | .staticCacheFirst =>
    let out := cacheFirstStrategy net st.staticCache req
    (some out.1, { st with staticCache := out.2 })
  | .defaultNetworkFirst =>
    let out := networkFirstStrategy net st.runtimeCache req
    (some out.1, { st with runtimeCache := out.2 })

/-- cache.addAll(assets): fetch every listed asset; if any fetch rejects or
resolves with a non-ok status, the whole operation rejects and the store is
left untouched (all-or-nothing); otherwise every asset is stored. The
network is the parameter netFor, giving each URL its fetch outcome. -/
def addAll (netFor : String → Option Response) :
    List String → CacheStore → Option CacheStore
  | [], cache => some cache
  | a :: rest, cache =>
    match netFor a with
    | none => none
    | some r =>
      if respOk r.status then addAll netFor rest (cacheInsert cache a r)
      else none

/-- Outcome of the install event handler: whether the promise given to
event.waitUntil resolved (the install step completed), whether skipWaiting
was reached, and the primary store contents afterwards. -/
structure InstallOutcome where
  installCompleted : Bool
  skipWaitingCalled : Bool
  cacheAfter : CacheStore
deriving DecidableEq, Repr

/-- The install event listener in sw.js: open the primary store, addAll the
static assets, then skipWaiting. The promise chain ends in a catch handler
that only logs, so the promise handed to event.waitUntil resolves in both
branches: the install step completes even when addAll rejects, and only
skipWaiting is skipped. -/
def installEvent (netFor : String → Option Response)
    (cache : CacheStore) : InstallOutcome :=
  match addAll netFor STATIC_ASSETS cache with
  | some cache2 => ⟨true, true, cache2⟩
  | none => ⟨true, false, cache⟩

/-- The store names the activate handler recognizes as current. -/
def currentCaches : List String := [CACHE_VERSION, RUNTIME_CACHE, IMAGE_CACHE]

/-- The activate event listener in sw.js: enumerate all store names and
delete every store whose name is not in currentCaches. The state is the
list of named stores; deletion removes the whole named store. -/
def activateEvent (stores : List (String × CacheStore)) :
    List (String × CacheStore) :=
  stores.filter (fun p => decide (p.1 ∈ currentCaches))

/-- Outcome of one fetch attempt inside fetchWithBackoff: the promise
resolved with a response of the given status, or it threw (isAbort is true
when the thrown error is the AbortError of the 30s timeout). -/
inductive FetchOutcome where
  | resp (status : Nat)
  | err (isAbort : Bool)
deriving DecidableEq, Repr

/-- How fetchWithBackoff terminates: return an ok response, return a
non-transient non-ok response immediately, rethrow the error of the
attempt with the given index, or throw the generic terminal error
"API call failed after all retries." when the loop runs out. -/
inductive BackoffResult where
  | success (status : Nat)
  | immediate (status : Nat)
  | thrown (attemptIdx : Nat)
  | exhausted
deriving DecidableEq, Repr

/-- A run of fetchWithBackoff: its result, the list of delays actually
waited (in order), and the number of fetch attempts performed. -/
structure BackoffTrace where
  result : BackoffResult
  delays : List Nat
  attemptsMade : Nat
deriving DecidableEq, Repr

/-- The loop body of fetchWithBackoff from part_002, with fuel equal to
retries minus the current index i. An ok response returns at once. A 503
or 429 waits delay and doubles it, even on the final iteration, after
which the loop exits into the generic terminal throw. Any other status
returns at once without retrying. A thrown fetch waits and retries unless
this is the final iteration (i = retries - 1, fuel = 1), in which case the
error of the current attempt is rethrown. -/
def backoffLoop (attempt : Nat → FetchOutcome) :
    Nat → Nat → Nat → BackoffTrace
  | 0, _, _ => ⟨.exhausted, [], 0⟩
  | fuel + 1, i, delay =>
    match attempt i with
    | .resp s =>
      if respOk s then ⟨.success s, [], 1⟩
      else if s = 503 || s = 429 then
        let t := backoffLoop attempt fuel (i + 1) (delay * 2)
        ⟨t.result, delay :: t.delays, t.attemptsMade + 1⟩
      else ⟨.immediate s, [], 1⟩
    | .err _ =>
      if fuel = 0 then ⟨.thrown i, [], 1⟩
      else
        let t := backoffLoop attempt fuel (i + 1) (delay * 2)
        ⟨t.result, delay :: t.delays, t.attemptsMade + 1⟩

/-- fetchWithBackoff(url, options, retries, delay) from part_002, with the
network abstracted as the map from attempt index to outcome. The source
defaults are retries = 3 and delay = 1000. -/
def fetchWithBackoff (attempt : Nat → FetchOutcome)
    (retries delay : Nat) : BackoffTrace :=
  backoffLoop attempt retries 0 delay

/-- Scenario of the C1 backoff-timing property: the first three attempts
resolve with status 429, any further attempt would resolve with 200. -/
def attempts429 : Nat → FetchOutcome :=
  fun i => if i < 3 then .resp 429 else .resp 200

/-- Scenario for C6: the first attempt throws a non-timeout network error,
any further attempt resolves with 200. -/
def attemptsNetErr : Nat → FetchOutcome :=
  fun i => if i = 0 then .err false else .resp 200

/-- Install-time network where the fetch of one listed asset (style.css)
rejects and every other asset resolves ok. -/
def failingAssetFetch : String → Option Response :=
  fun u => if u = "/style.css" then none else some ⟨200, "OK", u⟩

/-- A store is well formed when it holds at most one entry per URL key. -/
def storeWF (c : CacheStore) : Prop := (c.map Prod.fst).Nodup

/-- All three service-worker stores are well formed. -/
def swWF (st : SWState) : Prop :=
  storeWF st.staticCache ∧ storeWF st.runtimeCache ∧ storeWF st.imageCache

/-! ## Helper lemmas about the backoff loop -/

theorem map_range_two_mul (d : Nat) (k : Nat) :
    (List.range k).map ((fun n => d * 2 ^ n) ∘ Nat.succ) =
      (List.range k).map (fun n => d * 2 * 2 ^ n) := by
  apply List.map_congr_left
  intro a _
  simp [Function.comp, pow_succ]
  ring

theorem geom_cons (d : Nat) (l : List Nat)
    (h : l = (List.range l.length).map (fun n => d * 2 * 2 ^ n)) :
    d :: l = (List.range (d :: l).length).map (fun n => d * 2 ^ n) := by
  rw [List.length_cons, List.range_succ_eq_map, List.map_cons, List.map_map,
    map_range_two_mul]
  refine List.cons_eq_cons.mpr ⟨by simp, ?_⟩
  conv_lhs => rw [h]

theorem backoffLoop_delays_geom (attempt : Nat → FetchOutcome) :
    ∀ (fuel i delay : Nat),
      (backoffLoop attempt fuel i delay).delays =
        (List.range (backoffLoop attempt fuel i delay).delays.length).map
          (fun n => delay * 2 ^ n) := by
  intro fuel
  induction fuel with
  | zero => intro i delay; simp [backoffLoop]
  | succ f ih =>
    intro i delay
    simp only [backoffLoop]
    cases hatt : attempt i with
    | resp s =>
      by_cases hok : respOk s
      · simp [hok]
      · by_cases ht : (s = 503 || s = 429) = true
        · simp only [hok, ht, Bool.false_eq_true, if_false, if_true]
          exact geom_cons delay _ (ih (i + 1) (delay * 2))
        · simp only [hok, Bool.false_eq_true, if_false,
            Bool.not_eq_true] at ht ⊢
          simp [ht]
    | err b =>
      by_cases hf : f = 0
      · simp [hf]
      · simp only [hf, if_false]
        exact geom_cons delay _ (ih (i + 1) (delay * 2))

theorem backoffLoop_immediate (attempt : Nat → FetchOutcome)
    (s fuel i delay : Nat) (hfuel : 0 < fuel) (hatt : attempt i = .resp s)
    (hok : respOk s = false) (h503 : s ≠ 503) (h429 : s ≠ 429) :
    backoffLoop attempt fuel i delay = ⟨.immediate s, [], 1⟩ := by
  obtain ⟨f, rfl⟩ : ∃ f, fuel = f + 1 :=
    ⟨fuel - 1, (Nat.succ_pred_eq_of_pos hfuel).symm⟩
  simp [backoffLoop, hatt, hok, h503, h429]

theorem backoffLoop_all_err (attempt : Nat → FetchOutcome) :
    ∀ (fuel i delay : Nat), 0 < fuel →
      (∀ j, i ≤ j → j < i + fuel → ∃ b, attempt j = .err b) →
      (backoffLoop attempt fuel i delay).result = .thrown (i + fuel - 1) ∧
      (backoffLoop attempt fuel i delay).attemptsMade = fuel := by
  intro fuel
  induction fuel with
  | zero => intro i delay h; omega
  | succ f ih =>
    intro i delay _ herr
    obtain ⟨b, hb⟩ := herr i (Nat.le_refl i) (by omega)
    by_cases hf : f = 0
    · subst hf
      simp [backoffLoop, hb]
    · have hrec := ih (i + 1) (delay * 2) (Nat.pos_of_ne_zero hf)
        (fun j h1 h2 => herr j (by omega) (by omega))
      simp only [backoffLoop, hb, hf, if_false]
      refine ⟨?_, ?_⟩
      · rw [hrec.1]
        congr 1
        omega
      · rw [hrec.2]

theorem backoffLoop_all_transient (attempt : Nat → FetchOutcome) :
    ∀ (fuel i delay : Nat),
      (∀ j, i ≤ j → j < i + fuel →
        attempt j = .resp 429 ∨ attempt j = .resp 503) →
      (backoffLoop attempt fuel i delay).result = .exhausted ∧
      (backoffLoop attempt fuel i delay).delays.length = fuel ∧
      (backoffLoop attempt fuel i delay).attemptsMade = fuel := by
  intro fuel
  induction fuel with
  | zero => intro i delay _; simp [backoffLoop]
  | succ f ih =>
    intro i delay htr
    have hrec := ih (i + 1) (delay * 2)
      (fun j h1 h2 => htr j (by omega) (by omega))
    rcases htr i (Nat.le_refl i) (by omega) with h4 | h5
    · simp only [backoffLoop, h4]
      have : respOk 429 = false := by decide
      simp [this, hrec.1, hrec.2.1, hrec.2.2]
    · simp only [backoffLoop, h5]
      have : respOk 503 = false := by decide
      simp [this, hrec.1, hrec.2.1, hrec.2.2]

theorem backoffLoop_transient_then_ok (attempt : Nat → FetchOutcome)
    (s fuel i delay : Nat) (hfuel : 2 ≤ fuel)
    (htr : attempt i = .resp 429 ∨ attempt i = .resp 503)
    (hnext : attempt (i + 1) = .resp s) (hok : respOk s = true) :
    backoffLoop attempt fuel i delay = ⟨.success s, [delay], 2⟩ := by
  obtain ⟨f, rfl⟩ : ∃ f, fuel = f + 1 + 1 := ⟨fuel - 2, by omega⟩
  rcases htr with h4 | h5
  · have : respOk 429 = false := by decide
    simp [backoffLoop, h4, this, hnext, hok]
  · have : respOk 503 = false := by decide
    simp [backoffLoop, h5, this, hnext, hok]

/-! ## Claims C1 and C6: the backoff retry helper -/

/-- C1 counterexample: with retries = 3 and initialDelay = 1000, three
consecutive 429 responses exhaust the loop after exactly 3 total attempts
and 3 waits (1000, 2000, 4000); the 4th attempt, which would have
succeeded with status 200, is never made, and the helper throws the
generic terminal error instead of returning a success response. -/
theorem C1_counterexample :
    (fetchWithBackoff attempts429 3 1000).attemptsMade = 3 ∧
    (fetchWithBackoff attempts429 3 1000).delays = [1000, 2000, 4000] ∧
    (fetchWithBackoff attempts429 3 1000).result = .exhausted ∧
    ¬ (fetchWithBackoff attempts429 3 1000).result = .success 200 := by
  decide

/-- C1 (amended): in every run of the helper the n-th wait (0-indexed)
lasts exactly initialDelay times 2 to the n, i.e. the delay before the
n-th retry is initialDelay times 2 to the (n - 1); and in the concrete
scenario retries = 3, initialDelay = 1000 with three consecutive 429
responses, the helper makes exactly 3 total attempts (2 retries), waits
1000, 2000 and 4000, and then throws the generic terminal error - a 4th
attempt is never performed. -/
theorem C1_backoff_timing :
    (∀ (attempt : Nat → FetchOutcome) (retries delay : Nat),
      (fetchWithBackoff attempt retries delay).delays =
        (List.range (fetchWithBackoff attempt retries delay).delays.length).map
          (fun n => delay * 2 ^ n)) ∧
    fetchWithBackoff attempts429 3 1000 = ⟨.exhausted, [1000, 2000, 4000], 3⟩ := by
  refine ⟨?_, by decide⟩
  intro attempt retries delay
  exact backoffLoop_delays_geom attempt retries 0 delay

/-- C6 counterexample: the first attempt fails with a thrown non-timeout
network error (err false) - not a 429, not a 503, not a timeout - yet the
helper waits and retries, and the second attempt returns success: the
claim that an attempt is retried only when the failure is a 429, a 503,
or a timeout is false. -/
theorem C6_counterexample :
    attemptsNetErr 0 = .err false ∧
    fetchWithBackoff attemptsNetErr 3 1000 =
      ⟨.success 200, [1000], 2⟩ := by
  decide

/-- C6 (amended): a response with a non-ok status other than 503 and 429
is returned immediately with zero retries and zero waits; when every
attempt throws, the error of the last attempt (index retries - 1) is
rethrown - the last failure is surfaced; when every attempt returns a
transient 429/503 status, the loop waits after each of the retries
attempts (including the last) and then throws the generic terminal error
rather than surfacing the last response; a thrown error (timeout or any
other network error) is also retried when attempts remain; and a
transient status followed by an ok response yields that response after
one wait. -/
theorem C6_retry_policy :
    (∀ (attempt : Nat → FetchOutcome) (s retries delay : Nat),
      0 < retries → attempt 0 = .resp s → respOk s = false →
      s ≠ 503 → s ≠ 429 →
      fetchWithBackoff attempt retries delay = ⟨.immediate s, [], 1⟩) ∧
    (∀ (attempt : Nat → FetchOutcome) (retries delay : Nat),
      0 < retries → (∀ j, j < retries → ∃ b, attempt j = .err b) →
      (fetchWithBackoff attempt retries delay).result = .thrown (retries - 1) ∧
      (fetchWithBackoff attempt retries delay).attemptsMade = retries) ∧
    (∀ (attempt : Nat → FetchOutcome) (retries delay : Nat),
      (∀ j, j < retries → attempt j = .resp 429 ∨ attempt j = .resp 503) →
      (fetchWithBackoff attempt retries delay).result = .exhausted ∧
      (fetchWithBackoff attempt retries delay).delays.length = retries ∧
      (fetchWithBackoff attempt retries delay).attemptsMade = retries) ∧
    (∀ (attempt : Nat → FetchOutcome) (s retries delay : Nat),
      2 ≤ retries → (attempt 0 = .resp 429 ∨ attempt 0 = .resp 503) →
      attempt 1 = .resp s → respOk s = true →
      fetchWithBackoff attempt retries delay = ⟨.success s, [delay], 2⟩) := by
  refine ⟨?_, ?_, ?_, ?_⟩
  · intro attempt s retries delay h1 h2 h3 h4 h5
    exact backoffLoop_immediate attempt s retries 0 delay h1 h2 h3 h4 h5
  · intro attempt retries delay h1 h2
    have := backoffLoop_all_err attempt retries 0 delay h1
      (fun j _ hj => h2 j (by omega))
    simpa using this
  · intro attempt retries delay h
    exact backoffLoop_all_transient attempt retries 0 delay
      (fun j _ hj => h j (by omega))
  · intro attempt s retries delay h1 h2 h3 h4
    exact backoffLoop_transient_then_ok attempt s retries 0 delay h1 h2 h3 h4

/-- C6 witness: the amended retry policy applied at concrete inputs - a
400 response yields zero retries; three thrown errors end with the third
error rethrown; three 429 responses exhaust into the generic terminal
error; a 503 followed by a 200 succeeds after one wait. -/
theorem C6_retry_policy_witness :
    fetchWithBackoff (fun _ => .resp 400) 3 1000 = ⟨.immediate 400, [], 1⟩ ∧
    (fetchWithBackoff (fun _ => .err true) 3 1000).result = .thrown 2 ∧
    (fetchWithBackoff (fun _ => .resp 429) 3 1000).result = .exhausted ∧
    fetchWithBackoff (fun i => if i = 0 then .resp 503 else .resp 200) 3 1000 =
      ⟨.success 200, [1000], 2⟩ := by
  refine ⟨?_, ?_, ?_, ?_⟩
  · exact C6_retry_policy.1 (fun _ => .resp 400) 400 3 1000 (by decide) rfl
      (by decide) (by decide) (by decide)
  · exact (C6_retry_policy.2.1 (fun _ => .err true) 3 1000 (by decide)
      (fun j _ => ⟨true, rfl⟩)).1
  · exact (C6_retry_policy.2.2.1 (fun _ => .resp 429) 3 1000
      (fun j _ => Or.inl rfl)).1
  · exact C6_retry_policy.2.2.2 (fun i => if i = 0 then .resp 503 else .resp 200)
      200 3 1000 (by decide) (Or.inr rfl) rfl (by decide)

/-! ## Helper lemmas about the cache stores and strategies -/

theorem cacheLookup_cacheInsert (cache : CacheStore) (u : String)
    (r : Response) : cacheLookup (cacheInsert cache u r) u = some r := by
  induction cache with
  | nil => simp [cacheInsert, cacheLookup]
  | cons p rest ih =>
    obtain ⟨k, v⟩ := p
    by_cases h : k = u
    · simp [cacheInsert, h, cacheLookup]
    · simp [cacheInsert, h, cacheLookup, ih]

theorem mem_keys_cacheInsert (cache : CacheStore) (u x : String)
    (r : Response) (h : x ∈ (cacheInsert cache u r).map Prod.fst) :
    x ∈ cache.map Prod.fst ∨ x = u := by
  induction cache with
  | nil =>
    right
    simpa [cacheInsert] using h
  | cons p rest ih =>
    obtain ⟨k, v⟩ := p
    by_cases hk : k = u
    · rw [cacheInsert, if_pos hk, List.map_cons, List.mem_cons] at h
      rcases h with h | h
      · right; exact h
      · left; rw [List.map_cons, List.mem_cons]; right; exact h
    · rw [cacheInsert, if_neg hk, List.map_cons, List.mem_cons] at h
      rcases h with h | h
      · left; rw [List.map_cons, List.mem_cons]; left; exact h
      · rcases ih h with h2 | h2
        · left; rw [List.map_cons, List.mem_cons]; right; exact h2
        · right; exact h2

theorem storeWF_cacheInsert (cache : CacheStore) (u : String) (r : Response)
    (h : storeWF cache) : storeWF (cacheInsert cache u r) := by
  induction cache with
  | nil => simp [cacheInsert, storeWF]
  | cons p rest ih =>
    obtain ⟨k, v⟩ := p
    rw [storeWF, List.map_cons, List.nodup_cons] at h
    by_cases hk : k = u
    · rw [cacheInsert, if_pos hk, storeWF, List.map_cons, List.nodup_cons]
      subst hk
      exact ⟨h.1, h.2⟩
    · rw [cacheInsert, if_neg hk, storeWF, List.map_cons, List.nodup_cons]
      refine ⟨?_, ih h.2⟩
      intro hmem
      rcases mem_keys_cacheInsert rest u k r hmem with h2 | h2
      · exact h.1 h2
      · exact hk h2

theorem storeWF_cachePut (cache : CacheStore) (req : Request) (r : Response)
    (h : storeWF cache) : storeWF (cachePut cache req r) := by
  rw [cachePut]
  by_cases hm : req.method = "GET"
  · simp only [if_pos hm]
    exact storeWF_cacheInsert cache req.url r h
  · simp only [if_neg hm]
    exact h

theorem networkFirst_state (net : Option Response) (cache : CacheStore)
    (req : Request) :
    (networkFirstStrategy net cache req).2 = cache ∨
    ∃ r, net = some r ∧ r.status = 200 ∧
      (networkFirstStrategy net cache req).2 = cachePut cache req r := by
  cases net with
  | some r =>
    by_cases h : r.status = 200
    · right; exact ⟨r, rfl, h, by simp [networkFirstStrategy, h]⟩
    · left; simp [networkFirstStrategy, h]
  | none =>
    left
    rw [networkFirstStrategy]
    cases hm : cacheMatch cache req with
    | some cached => rfl
    | none =>
      by_cases hd : req.destination = "document"
      · simp only [if_pos hd]
        cases ho : cacheLookup cache "/offline.html" <;> rfl
      · simp only [if_neg hd]

theorem cacheFirst_state (net : Option Response) (cache : CacheStore)
    (req : Request) :
    (cacheFirstStrategy net cache req).2 = cache ∨
    ∃ r, net = some r ∧ r.status = 200 ∧
      (cacheFirstStrategy net cache req).2 = cachePut cache req r := by
  cases hm : cacheMatch cache req with
  | some cached =>
    cases net with
    | some r =>
      by_cases h : r.status = 200
      · right; exact ⟨r, rfl, h, by simp [cacheFirstStrategy, hm, h]⟩
      · left; simp [cacheFirstStrategy, hm, h]
    | none => left; simp [cacheFirstStrategy, hm]
  | none =>
    cases net with
    | some r =>
      by_cases h : r.status = 200
      · right; exact ⟨r, rfl, h, by simp [cacheFirstStrategy, hm, h]⟩
      · left; simp [cacheFirstStrategy, hm, h]
    | none => left; simp [cacheFirstStrategy, hm]

theorem storeWF_networkFirst (net : Option Response) (cache : CacheStore)
    (req : Request) (h : storeWF cache) :
    storeWF (networkFirstStrategy net cache req).2 := by
  rcases networkFirst_state net cache req with h2 | ⟨r, _, _, h2⟩ <;> rw [h2]
  · exact h
  · exact storeWF_cachePut cache req r h

theorem storeWF_cacheFirst (net : Option Response) (cache : CacheStore)
    (req : Request) (h : storeWF cache) :
    storeWF (cacheFirstStrategy net cache req).2 := by
  rcases cacheFirst_state net cache req with h2 | ⟨r, _, _, h2⟩ <;> rw [h2]
  · exact h
  · exact storeWF_cachePut cache req r h

theorem networkFirst_nonGET_state (net : Option Response) (cache : CacheStore)
    (req : Request) (h : req.method ≠ "GET") :
    (networkFirstStrategy net cache req).2 = cache := by
  rcases networkFirst_state net cache req with h2 | ⟨r, _, _, h2⟩ <;> rw [h2]
  rw [cachePut, if_neg h]

theorem cacheFirst_nonGET_state (net : Option Response) (cache : CacheStore)
    (req : Request) (h : req.method ≠ "GET") :
    (cacheFirstStrategy net cache req).2 = cache := by
  rcases cacheFirst_state net cache req with h2 | ⟨r, _, _, h2⟩ <;> rw [h2]
  rw [cachePut, if_neg h]

/-! ## Claims C2, C3, C4, C9, C10: the fetch strategies -/

/-- C2: in the network-first strategy, for a document request whose fetch
throws and which has no cached copy in the runtime store, the response is
exactly (byte-for-byte) the response stored under /offline.html in that
store; only when no such entry exists is the synthesized 503 returned. -/
theorem C2_offline_fallback (cache : CacheStore) (req : Request)
    (hdoc : req.destination = "document")
    (hmiss : cacheMatch cache req = none) :
    (∀ offlinePage, cacheLookup cache "/offline.html" = some offlinePage →
      networkFirstStrategy none cache req = (offlinePage, cache)) ∧
    (cacheLookup cache "/offline.html" = none →
      networkFirstStrategy none cache req = (offlineNoCache503, cache)) := by
  constructor
  · intro offlinePage hoff
    simp [networkFirstStrategy, hmiss, hdoc, hoff]
  · intro hoff
    simp [networkFirstStrategy, hmiss, hdoc, hoff]

/-- C2 witness: a concrete runtime store holding an offline page under
/offline.html, and a document request for an uncached URL whose fetch
throws: the offline page itself is returned. -/
theorem C2_offline_fallback_witness :
    networkFirstStrategy none
      [("/offline.html", ⟨200, "OK", "offline page body"⟩)]
      ⟨"https://sugamdev.com/blog", "https://sugamdev.com", "GET", "document"⟩ =
      (⟨200, "OK", "offline page body"⟩,
       [("/offline.html", ⟨200, "OK", "offline page body"⟩)]) :=
  (C2_offline_fallback _ _ rfl (by decide)).1 _ (by decide)

/-- C3: the fetch listener dispatches every request to exactly one branch,
in priority order: cross-origin requests are not intercepted (response
none, state untouched); same-origin URLs containing the API path marker go
to network-first on the runtime store; image destinations go to
cache-first on the image store; URLs matching the static-asset list go to
cache-first on the primary store; everything else goes to network-first on
the runtime store. -/
theorem C3_dispatch (selfOrigin : String) (net : Option Response)
    (st : SWState) (req : Request) :
    (req.origin ≠ selfOrigin →
      classifyRequest selfOrigin req = .passThrough ∧
      handleFetch selfOrigin net st req = (none, st)) ∧
    (req.origin = selfOrigin → strIncludes req.url "/api/" = true →
      classifyRequest selfOrigin req = .apiNetworkFirst ∧
      handleFetch selfOrigin net st req =
        (some (networkFirstStrategy net st.runtimeCache req).1,
         { st with runtimeCache := (networkFirstStrategy net st.runtimeCache req).2 })) ∧
    (req.origin = selfOrigin → strIncludes req.url "/api/" = false →
      req.destination = "image" →
      classifyRequest selfOrigin req = .imageCacheFirst ∧
      handleFetch selfOrigin net st req =
        (some (cacheFirstStrategy net st.imageCache req).1,
         { st with imageCache := (cacheFirstStrategy net st.imageCache req).2 })) ∧
    (req.origin = selfOrigin → strIncludes req.url "/api/" = false →
      req.destination ≠ "image" →
      STATIC_ASSETS.any (fun asset => strIncludes req.url asset) = true →
      classifyRequest selfOrigin req = .staticCacheFirst ∧
      handleFetch selfOrigin net st req =
        (some (cacheFirstStrategy net st.staticCache req).1,
         { st with staticCache := (cacheFirstStrategy net st.staticCache req).2 })) ∧
    (req.origin = selfOrigin → strIncludes req.url "/api/" = false →
      req.destination ≠ "image" →
      STATIC_ASSETS.any (fun asset => strIncludes req.url asset) = false →
      classifyRequest selfOrigin req = .defaultNetworkFirst ∧
      handleFetch selfOrigin net st req =
        (some (networkFirstStrategy net st.runtimeCache req).1,
         { st with runtimeCache := (networkFirstStrategy net st.runtimeCache req).2 })) := by
  refine ⟨?_, ?_, ?_, ?_, ?_⟩
  · intro h1
    have hc : classifyRequest selfOrigin req = .passThrough := by
      simp [classifyRequest, h1]
    exact ⟨hc, by simp [handleFetch, hc]⟩
  · intro h1 h2
    have hc : classifyRequest selfOrigin req = .apiNetworkFirst := by
      simp [classifyRequest, h1, h2]
    exact ⟨hc, by simp [handleFetch, hc]⟩
  · intro h1 h2 h3
    have hc : classifyRequest selfOrigin req = .imageCacheFirst := by
      simp [classifyRequest, h1, h2, h3]
    exact ⟨hc, by simp [handleFetch, hc]⟩
  · intro h1 h2 h3 h4
    have hc : classifyRequest selfOrigin req = .staticCacheFirst := by
      simp [classifyRequest, h1, h2, h3, h4]
    exact ⟨hc, by simp [handleFetch, hc]⟩
  · intro h1 h2 h3 h4
    have hc : classifyRequest selfOrigin req = .defaultNetworkFirst := by
      simp [classifyRequest, h1, h2, h3, h4]
    exact ⟨hc, by simp [handleFetch, hc]⟩

/-- C3 witness: concrete requests of each class - a cross-origin request
is passed through, a POST under /api/ goes to network-first, an image goes
to cache-first on the image store, the stylesheet goes to cache-first on
the primary store. -/
theorem C3_dispatch_witness :
    classifyRequest "https://sugamdev.com"
      ⟨"https://fonts.gstatic.com/font.woff2", "https://fonts.gstatic.com",
       "GET", "font"⟩ = .passThrough ∧
    classifyRequest "https://sugamdev.com"
      ⟨"https://sugamdev.com/api/chat", "https://sugamdev.com", "POST", ""⟩ =
      .apiNetworkFirst ∧
    classifyRequest "https://sugamdev.com"
      ⟨"https://sugamdev.com/hero.png", "https://sugamdev.com", "GET",
       "image"⟩ = .imageCacheFirst ∧
    classifyRequest "https://sugamdev.com"
      ⟨"https://sugamdev.com/style.css", "https://sugamdev.com", "GET",
       "style"⟩ = .staticCacheFirst := by
  refine ⟨?_, ?_, ?_, ?_⟩
  · exact ((C3_dispatch "https://sugamdev.com" none ⟨[], [], []⟩ _).1
      (by decide)).1
  · exact ((C3_dispatch "https://sugamdev.com" none ⟨[], [], []⟩ _).2.1
      rfl (by decide)).1
  · exact ((C3_dispatch "https://sugamdev.com" none ⟨[], [], []⟩ _).2.2.1
      rfl (by decide) rfl).1
  · exact ((C3_dispatch "https://sugamdev.com" none ⟨[], [], []⟩ _).2.2.2.1
      rfl (by decide) (by decide) (by decide)).1

/-- C4: cache-first behavior. On a hit the cached response is returned
whatever the network does (including when the background fetch throws);
when the background fetch resolves with status 200 the entry is
overwritten and a subsequent request returns the fresh response; on a miss
a 200 response is stored and returned; on a miss with a thrown fetch the
synthesized 503 is returned and the store is untouched. -/
theorem C4_cacheFirst (cache : CacheStore) (req : Request)
    (cached r : Response) :
    (cacheMatch cache req = some cached →
      ∀ net, (cacheFirstStrategy net cache req).1 = cached) ∧
    (cacheMatch cache req = some cached → r.status = 200 →
      cacheMatch (cacheFirstStrategy (some r) cache req).2 req = some r ∧
      ∀ net2,
        (cacheFirstStrategy net2 (cacheFirstStrategy (some r) cache req).2 req).1 = r) ∧
    (cacheMatch cache req = none → r.status = 200 → req.method = "GET" →
      cacheFirstStrategy (some r) cache req = (r, cacheInsert cache req.url r) ∧
      cacheMatch (cacheInsert cache req.url r) req = some r) ∧
    (cacheMatch cache req = none →
      cacheFirstStrategy none cache req = (offlineContent503, cache)) := by
  refine ⟨?_, ?_, ?_, ?_⟩
  · intro hm net
    cases net with
    | some r2 =>
      by_cases h : r2.status = 200 <;> simp [cacheFirstStrategy, hm, h]
    | none => simp [cacheFirstStrategy, hm]
  · intro hm h200
    have hGET : req.method = "GET" := by
      by_contra hg
      rw [cacheMatch, if_neg hg] at hm
      exact Option.noConfusion hm
    have hstate : (cacheFirstStrategy (some r) cache req).2 =
        cacheInsert cache req.url r := by
      simp [cacheFirstStrategy, hm, h200, cachePut, hGET]
    have hmatch2 : cacheMatch (cacheInsert cache req.url r) req = some r := by
      rw [cacheMatch, if_pos hGET]
      exact cacheLookup_cacheInsert cache req.url r
    refine ⟨by rw [hstate]; exact hmatch2, ?_⟩
    intro net2
    rw [hstate]
    cases net2 with
    | some r2 =>
      by_cases h : r2.status = 200 <;> simp [cacheFirstStrategy, hmatch2, h]
    | none => simp [cacheFirstStrategy, hmatch2]
  · intro hm h200 hGET
    refine ⟨by simp [cacheFirstStrategy, hm, h200, cachePut, hGET], ?_⟩
    rw [cacheMatch, if_pos hGET]
    exact cacheLookup_cacheInsert cache req.url r
  · intro hm
    simp [cacheFirstStrategy, hm]

/-- C4 witness: a store holding an old copy of an image URL - the hit
returns the old copy even with the network down; after a background
refresh resolves with a fresh 200 response, a second request returns the
fresh copy; and on an empty store a thrown fetch yields the synthesized
503. -/
theorem C4_cacheFirst_witness :
    (cacheFirstStrategy none
      [("https://sugamdev.com/hero.png", ⟨200, "OK", "old bytes"⟩)]
      ⟨"https://sugamdev.com/hero.png", "https://sugamdev.com", "GET",
       "image"⟩).1 = ⟨200, "OK", "old bytes"⟩ ∧
    (cacheFirstStrategy none
      (cacheFirstStrategy (some ⟨200, "OK", "new bytes"⟩)
        [("https://sugamdev.com/hero.png", ⟨200, "OK", "old bytes"⟩)]
        ⟨"https://sugamdev.com/hero.png", "https://sugamdev.com", "GET",
         "image"⟩).2
      ⟨"https://sugamdev.com/hero.png", "https://sugamdev.com", "GET",
       "image"⟩).1 = ⟨200, "OK", "new bytes"⟩ ∧
    cacheFirstStrategy none []
      ⟨"https://sugamdev.com/hero.png", "https://sugamdev.com", "GET",
       "image"⟩ = (offlineContent503, []) := by
  refine ⟨?_, ?_, ?_⟩
  · exact (C4_cacheFirst _ _ ⟨200, "OK", "old bytes"⟩
      ⟨200, "OK", "new bytes"⟩).1 (by decide) none
  · exact ((C4_cacheFirst _ _ ⟨200, "OK", "old bytes"⟩
      ⟨200, "OK", "new bytes"⟩).2.1 (by decide) rfl).2 none
  · exact (C4_cacheFirst [] _ ⟨200, "OK", "old bytes"⟩
      ⟨200, "OK", "new bytes"⟩).2.2.2 (by decide)

/-- C9: in both strategies a resolved response is written into the store
only when its status is exactly 200: any response with a different status
(201 and 204 included) is returned to the caller with the store left
unchanged. -/
theorem C9_cache_only_200 (cache : CacheStore) (req : Request) (r : Response)
    (h : r.status ≠ 200) :
    networkFirstStrategy (some r) cache req = (r, cache) ∧
    (cacheMatch cache req = none →
      cacheFirstStrategy (some r) cache req = (r, cache)) ∧
    (∀ cached, cacheMatch cache req = some cached →
      cacheFirstStrategy (some r) cache req = (cached, cache)) := by
  refine ⟨?_, ?_, ?_⟩
  · simp [networkFirstStrategy, h]
  · intro hm
    simp [cacheFirstStrategy, hm, h]
  · intro cached hm
    simp [cacheFirstStrategy, hm, h]

/-- C9 witness: a 201 response through network-first and a 204 response
through cache-first both come back unchanged with the store still
empty. -/
theorem C9_cache_only_200_witness :
    networkFirstStrategy (some ⟨201, "Created", "created body"⟩) []
      ⟨"https://sugamdev.com/api/send", "https://sugamdev.com", "GET", ""⟩ =
      (⟨201, "Created", "created body"⟩, []) ∧
    cacheFirstStrategy (some ⟨204, "No Content", ""⟩) []
      ⟨"https://sugamdev.com/hero.png", "https://sugamdev.com", "GET",
       "image"⟩ = (⟨204, "No Content", ""⟩, []) := by
  constructor
  · exact (C9_cache_only_200 [] _ _ (by decide)).1
  · exact (C9_cache_only_200 [] _ _ (by decide)).2.1 (by decide)

/-- C10: a fetch that resolves is returned to the caller as the response
whatever its status; and when the status is not 200 the store is untouched
too, so the response passes through entirely unchanged. The cache lookup,
the offline document and the synthesized 503 are reachable only in the
branch where the fetch throws (net = none). -/
theorem C10_resolved_passthrough (cache : CacheStore) (req : Request)
    (r : Response) :
    (networkFirstStrategy (some r) cache req).1 = r ∧
    (r.status ≠ 200 → networkFirstStrategy (some r) cache req = (r, cache)) := by
  constructor
  · by_cases h : r.status = 200 <;> simp [networkFirstStrategy, h]
  · intro h
    simp [networkFirstStrategy, h]

/-- C10 witness: a 500 response from the network is returned unchanged by
network-first, with the runtime store untouched, even for a document
request with a populated store. -/
theorem C10_resolved_passthrough_witness :
    networkFirstStrategy (some ⟨500, "Internal Server Error", "boom"⟩)
      [("/offline.html", ⟨200, "OK", "offline page body"⟩)]
      ⟨"https://sugamdev.com/api/chat", "https://sugamdev.com", "GET",
       "document"⟩ =
      (⟨500, "Internal Server Error", "boom"⟩,
       [("/offline.html", ⟨200, "OK", "offline page body"⟩)]) :=
  (C10_resolved_passthrough _ _ _).2 (by decide)

/-! ## Claims C5, C7, C8: lifecycle and store invariants -/

/-- C5: evidence against the claim. When the fetch of one listed asset
(/style.css here) rejects, cache.addAll rejects and writes nothing - but
the promise chain of the install handler ends in a catch that only logs,
so the promise handed to event.waitUntil resolves: the install step
completes (only skipWaiting is skipped) instead of failing and keeping
the previous version in control. -/
theorem C5_install_completes_despite_failure :
    addAll failingAssetFetch STATIC_ASSETS [] = none ∧
    installEvent failingAssetFetch [] = ⟨true, false, []⟩ := by decide

/-- C7: after activation, every surviving store is named by one of the
three current names; every store bearing a current name survives with its
contents intact (it remains queryable); and every surviving store is
exactly one of the pre-activation stores - eviction removes whole stores,
never single entries. -/
theorem C7_activate (stores : List (String × CacheStore)) :
    (∀ p ∈ activateEvent stores, p.1 ∈ currentCaches) ∧
    (∀ p ∈ stores, p.1 ∈ currentCaches → p ∈ activateEvent stores) ∧
    (∀ p ∈ activateEvent stores, p ∈ stores) := by
  refine ⟨?_, ?_, ?_⟩
  · intro p hp
    rw [activateEvent, List.mem_filter] at hp
    exact of_decide_eq_true hp.2
  · intro p hp hcur
    rw [activateEvent, List.mem_filter]
    exact ⟨hp, decide_eq_true hcur⟩
  · intro p hp
    rw [activateEvent, List.mem_filter] at hp
    exact hp.1

/-- C7 witness: with an old v2 store and the three current v3 stores
present, activation keeps the current primary store (queryable unchanged)
and the old store no longer exists. -/
theorem C7_activate_witness :
    ("portfolio-v3.0.0", ([] : CacheStore)) ∈
      activateEvent [("portfolio-v2.0.0", []), ("portfolio-v3.0.0", []),
        ("runtime-v3.0.0", []), ("images-v3.0.0", [])] ∧
    ("portfolio-v2.0.0", ([] : CacheStore)) ∉
      activateEvent [("portfolio-v2.0.0", []), ("portfolio-v3.0.0", []),
        ("runtime-v3.0.0", []), ("images-v3.0.0", [])] := by
  constructor
  · exact (C7_activate _).2.1 _ (by decide) (by decide)
  · intro h
    exact absurd ((C7_activate _).1 _ h) (by decide)

/-- C8: a request whose method is not GET never causes a write - all three
stores are unchanged by the fetch handler (in particular for a POST to an
API path); the handler preserves the at-most-one-entry-per-key invariant
of every store; and a write for an existing key replaces the old entry. -/
theorem C8_get_only_and_unique (selfOrigin : String) (net : Option Response)
    (st : SWState) (req : Request) :
    (req.method ≠ "GET" → (handleFetch selfOrigin net st req).2 = st) ∧
    (swWF st → swWF (handleFetch selfOrigin net st req).2) ∧
    (∀ (cache : CacheStore) (u : String) (r : Response),
      cacheLookup (cacheInsert cache u r) u = some r) := by
  refine ⟨?_, ?_, ?_⟩
  · intro h
    cases hc : classifyRequest selfOrigin req with
    | passThrough => simp [handleFetch, hc]
    | apiNetworkFirst =>
      simp [handleFetch, hc, networkFirst_nonGET_state net st.runtimeCache req h]
    | imageCacheFirst =>
      simp [handleFetch, hc, cacheFirst_nonGET_state net st.imageCache req h]
    | staticCacheFirst =>
      simp [handleFetch, hc, cacheFirst_nonGET_state net st.staticCache req h]
    | defaultNetworkFirst =>
      simp [handleFetch, hc, networkFirst_nonGET_state net st.runtimeCache req h]
  · intro hwf
    obtain ⟨h1, h2, h3⟩ := hwf
    cases hc : classifyRequest selfOrigin req with
    | passThrough =>
      simp only [handleFetch, hc]
      exact ⟨h1, h2, h3⟩
    | apiNetworkFirst =>
      simp only [handleFetch, hc]
      exact ⟨h1, storeWF_networkFirst net st.runtimeCache req h2, h3⟩
    | imageCacheFirst =>
      simp only [handleFetch, hc]
      exact ⟨h1, h2, storeWF_cacheFirst net st.imageCache req h3⟩
    | staticCacheFirst =>
      simp only [handleFetch, hc]
      exact ⟨storeWF_cacheFirst net st.staticCache req h1, h2, h3⟩
    | defaultNetworkFirst =>
      simp only [handleFetch, hc]
      exact ⟨h1, storeWF_networkFirst net st.runtimeCache req h2, h3⟩
  · intro cache u r
    exact cacheLookup_cacheInsert cache u r

/-- C8 witness: a POST to an API path with a 200 response leaves all three
stores empty (no write), and inserting a second response for an already
present key replaces the stored entry. -/
theorem C8_get_only_and_unique_witness :
    (handleFetch "https://sugamdev.com" (some ⟨200, "OK", "created"⟩)
      ⟨[], [], []⟩
      ⟨"https://sugamdev.com/api/send", "https://sugamdev.com", "POST",
       ""⟩).2 = ⟨[], [], []⟩ ∧
    cacheLookup
      (cacheInsert [("/a", ⟨200, "OK", "v1"⟩)] "/a" ⟨200, "OK", "v2"⟩)
      "/a" = some ⟨200, "OK", "v2"⟩ := by
  constructor
  · exact (C8_get_only_and_unique "https://sugamdev.com"
      (some ⟨200, "OK", "created"⟩) ⟨[], [], []⟩ _).1 (by decide)
  · exact (C8_get_only_and_unique "https://sugamdev.com" none ⟨[], [], []⟩
      ⟨"", "", "", ""⟩).2.2 _ _ _
